import Mathlib

/-!
Verification of the espurna sensor/settings core against its specification.

The development shallowly embeds the two source headers:
  * `src/code/espurna/sensor.h`   — quantity scales, `Convert`, `Energy`
  * `src/code/espurna/settings.h` — typed settings parse/format layer

`uint32_t` arithmetic is modelled over `ℕ` with explicit `% 2^32` at the
operations where C++ overflow can occur.  `double`-typed quantity values are
modelled over `ℚ` (exact arithmetic).  Text is modelled as `List ℕ` of
character codes.
-/

/-- Modulus of the C++ `uint32_t` type used by the integer quantity types. -/
def U32 : ℕ := 2 ^ 32

/-- Model of C++ `std::ratio`: a rational scale factor held as a
numerator/denominator pair.  `std::ratio` keeps the pair reduced; the
arithmetic below reduces after every operation, as the standard library does. -/
structure Scale where
  num : ℕ
  den : ℕ
deriving DecidableEq

/-- Reduction performed by `std::ratio` instantiation: divide both components
by their greatest common divisor. -/
def Scale.reduce (n d : ℕ) : Scale :=
  ⟨n / Nat.gcd n d, d / Nat.gcd n d⟩

/-- Model of `std::ratio_multiply`. -/
def Scale.mul (a b : Scale) : Scale :=
  Scale.reduce (a.num * b.num) (a.den * b.den)

/-- Model of `std::ratio_divide` (used as `Divide` in `Convert`). -/
def Scale.div (a b : Scale) : Scale :=
  Scale.reduce (a.num * b.den) (a.den * b.num)

/-- `Watts::Ratio = std::ratio<1>` (sensor.h line 61). -/
def Watts.Scale : Scale := ⟨1, 1⟩

/-- `Kilowatts::Ratio = std::ratio<1000>` (sensor.h line 110). -/
def Kilowatts.Scale : Scale := ⟨1000, 1⟩

/-- Modelled from the spec: `espurna::duration::Seconds::period` (declared in
system.h, absent from src).  Per spec §3 the time-unit scale of one second is
1, matching `std::chrono::seconds::period = std::ratio<1>`. -/
def secondsPeriod : Scale := ⟨1, 1⟩

/-- Modelled from the spec: `espurna::duration::Hours::period` (declared in
system.h, absent from src).  Per spec §3 the time-unit scale of one hour is
3600, matching `std::chrono::hours::period = std::ratio<3600>`. -/
def hoursPeriod : Scale := ⟨3600, 1⟩

/-- `WattSeconds::Ratio = ratio_multiply<Watts::Ratio, Seconds::period>`
(sensor.h lines 67-69). -/
def WattSeconds.Scale : Scale := Scale.mul Watts.Scale secondsPeriod

/-- `WattHours::Ratio = ratio_multiply<Watts::Ratio, Hours::period>`
(sensor.h lines 93-95). -/
def WattHours.Scale : Scale := Scale.mul Watts.Scale hoursPeriod

/-- `KilowattHours::Ratio = ratio_multiply<Kilowatts::Ratio, Hours::period>`
(sensor.h lines 116-118). -/
def KilowattHours.Scale : Scale := Scale.mul Kilowatts.Scale hoursPeriod

/-- `Energy::KwhMultiplier = KilowattHours::Ratio::num` (sensor.h line 147). -/
def KwhMultiplier : ℕ := KilowattHours.Scale.num

/-- `Convert<To, From>::from` (sensor.h lines 131-139) for the `uint32_t`-typed
quantities (WattSeconds, WattHours, KilowattHours):
`To(from.value * To::Type(Divide::num) / To::Type(Divide::den))` with
`Divide = ratio_divide<From::Ratio, To::Ratio>`.  The multiply is evaluated in
`uint32_t`, hence modulo `2^32`; the division then truncates. -/
def Convert.fromU32 (To From : Scale) (v : ℕ) : ℕ :=
  ((v * (Scale.div From To).num) % U32) / (Scale.div From To).den

/-- `Convert<To, From>::from` (sensor.h lines 131-139) for the `double`-typed
quantities (Watts, Kilowatts), with `double` arithmetic modelled exactly
over `ℚ`. -/
def Convert.fromQ (To From : Scale) (v : ℚ) : ℚ :=
  v * ((Scale.div From To).num : ℚ) / ((Scale.div From To).den : ℚ)

/-- The `Energy` accumulator state (sensor.h lines 141-198): a
`KilowattHours` part and a `WattSeconds` remainder, both `uint32_t`. -/
structure Energy where
  kwh : ℕ
  ws : ℕ
deriving DecidableEq

/-- Modelled from the spec: the normalization loop of `Energy::operator+=`
(declared sensor.h line 180, body in sensor.cpp, absent from src).  Spec §4.2:
"while `wsPart >= 3_600_000`, subtract `3_600_000` and increment `kwhPart`
by 1".  `kwhPart` is `uint32_t`, so the increment wraps modulo `2^32`. -/
def Energy.normalize (kwh ws : ℕ) : ℕ × ℕ :=
  if KwhMultiplier ≤ ws then
    Energy.normalize ((kwh + 1) % U32) (ws - KwhMultiplier)
  else
    (kwh, ws)
termination_by ws
decreasing_by
  have h1 : KwhMultiplier = 3600000 := rfl
  simp only [h1] at *
  omega

/-- Modelled from the spec: `Energy::operator+=(WattSeconds)` (declared
sensor.h line 180, body in sensor.cpp, absent from src).  Spec §4.2: "add
`delta.value` to `wsPart`" (a `uint32_t` addition, hence modulo `2^32`),
then run the normalization loop. -/
def Energy.accumulate (e : Energy) (delta : ℕ) : Energy :=
  let p := Energy.normalize e.kwh ((e.ws + delta) % U32)
  ⟨p.1, p.2⟩

/-- Modelled from the spec: `Energy::reset()` (declared sensor.h line 164,
body in sensor.cpp, absent from src).  Source comment: "sets internal
counters to zero". -/
def Energy.resetE (_e : Energy) : Energy := ⟨0, 0⟩

/-- Modelled from the spec: `Energy::operator bool()` (declared sensor.h
line 170, body in sensor.cpp, absent from src).  Source comment: "check
whether we have *any* energy recorded"; spec §4.2: true iff the state is
`Accumulating`, i.e. `kwhPart` and/or `wsPart` non-zero. -/
def Energy.toBool (e : Energy) : Bool :=
  decide (e.kwh ≠ 0) || decide (e.ws ≠ 0)

/-- Settings text (keys and stored values) modelled as lists of character
codes. -/
abbrev Text := List ℕ

/-- Decimal digit character codes, `48 = 0x30` through `57 = 0x39`. -/
def isDigitCode (c : ℕ) : Bool := decide (48 ≤ c) && decide (c ≤ 57)

/-- Modelled from the spec: decimal formatting of an unsigned integer,
the `String(value, base)` core of `espurna::settings::internal::serialize`
(settings.h lines 131-143) at the default base 10; `String(0)` is `"0"`. -/
def serializeNat (n : ℕ) : Text :=
  if n = 0 then [48] else ((Nat.digits 10 n).map (· + 48)).reverse

/-- A non-empty all-digit text: the shape accepted by the decimal parser. -/
def isValidNat (t : Text) : Bool := decide (t ≠ []) && t.all isDigitCode

/-- Modelled from the spec: `convert<T>` for unsigned integer types
(declared settings.h lines 119-129, bodies in settings.cpp, absent from src).
Spec §4.4: parse decimal text; "malformed or empty text yields the type's
zero/false value, never a failure signal". -/
def convertNat (t : Text) : ℕ :=
  if isValidNat t then Nat.ofDigits 10 ((t.map (· - 48)).reverse) else 0

/-- Modelled from the spec: decimal formatting of a signed integer,
`serialize` for the signed overloads (settings.h lines 145-159): a leading
minus sign (code 45) for negatives. -/
def serializeInt (x : ℤ) : Text :=
  if x < 0 then 45 :: serializeNat x.natAbs else serializeNat x.toNat

/-- A valid signed decimal text: optional leading minus, then digits. -/
def isValidInt (t : Text) : Bool :=
  if t.head? = some 45 then isValidNat (t.drop 1) else isValidNat t

/-- Modelled from the spec: `convert<T>` for signed integer types (declared
settings.h lines 104-114, bodies in settings.cpp, absent from src): a
leading minus negates the parsed magnitude; malformed text yields zero. -/
def convertInt (t : Text) : ℤ :=
  if t.head? = some 45 then -(convertNat (t.drop 1) : ℤ) else (convertNat t : ℤ)

/-- `serialize(bool)` (settings.h lines 161-163): the fixed tokens
`"true"` / `"false"`. -/
def serializeBool (b : Bool) : Text :=
  if b then [116, 114, 117, 101] else [102, 97, 108, 115, 101]

/-- Modelled from the spec: `convert<bool>` (declared settings.h line 117,
body in settings.cpp, absent from src): the token `"true"` parses as true,
anything else (including malformed text) as the zero value false. -/
def convertBool (t : Text) : Bool := decide (t = [116, 114, 117, 101])

/-- Modelled from the spec: `serialize(float/double)` (settings.h lines
165-171), `String(value, 3)`: fixed 3-decimal formatting, i.e. the text
spells the signed count of thousandths nearest the value (the decimal point
is presentation only and is abstracted away here). -/
def serializeFixed3 (x : ℚ) : Text := serializeInt (round (x * 1000))

/-- Modelled from the spec: `convert<float/double>` (declared settings.h
lines 98-102, bodies in settings.cpp, absent from src) applied to 3-decimal
fixed text: the spelled count of thousandths divided by 1000. -/
def convertFixed3 (t : Text) : ℚ := (convertInt t : ℚ) / 1000

/-- `getSetting<T>(key, defaultValue)` (settings.h lines 243-250) at
`T = int`: look the key up in the key-value store (the embedis-backed
`espurna::settings::get`, abstracted here as a partial map from keys to
stored text); when an entry is present convert its text, otherwise return
the caller default. -/
def getSettingI (store : Text → Option Text) (key : Text) (default : ℤ) : ℤ :=
  match store key with
  | some v => convertInt v
  | none => default

/-- One entry of an enumeration option table.  Modelled from the spec for
the helper type (`espurna::settings::options::Enumeration`, defined in
settings_helpers.h, absent from src): an option holds an enum `value()` and
a `keyword` string, and its `numeric()` code is the underlying integer of
its value — enum values are modelled directly as their underlying `ℤ`, so
`numeric()` is the `value` field itself. -/
structure OptEntry where
  value : ℤ
  keyword : Text
deriving DecidableEq

/-- Modelled from the spec: `Enumeration<T>::Numeric::check(value,
convert<UnderlyingType>)` (settings_helpers.h, absent from src): decides
whether the whole text is a valid number of the underlying type and, when it
is, holds the converted value. -/
def parseNumeric (t : Text) : Option ℤ :=
  if isValidInt t then some (convertInt t) else none

/-- `espurna::settings::internal::convert` — enumeration overload
(settings.h lines 173-191): empty text falls through to the default;
otherwise the text is checked as a number once, and a single ordered pass
over the options takes the numeric-code branch when the check succeeded
(`numeric && it.numeric() == numeric.value()`) and the keyword branch only
when it did not (`!numeric && *it == value`); no match returns the default. -/
def convertOpts (options : List OptEntry) (t : Text) (default : ℤ) : ℤ :=
  if t ≠ [] then
    match parseNumeric t with
    | some n =>
      match options.find? (fun e => e.value == n) with
      | some _ => n
      | none => default
    | none =>
      match options.find? (fun e => e.keyword == t) with
      | some e => e.value
      | none => default
  else default

/-- `espurna::sensor::Info` (sensor.h lines 217-226): static descriptor of a
magnitude slot. -/
structure Info where
  type : ℕ
  index : ℕ
  units : ℕ
  decimals : ℕ
  topic : Text
  description : Text
deriving DecidableEq

/-- `espurna::sensor::Value` (sensor.h lines 200-215): one observed
magnitude reading, with the `double` value modelled over `ℚ`. -/
structure Value where
  type : ℕ
  index : ℕ
  units : ℕ
  decimals : ℕ
  value : ℚ
  topic : Text
  repr : Text
deriving DecidableEq

/-- Modelled from the spec: the `MAGNITUDE_NONE` sentinel type code (defined
in the firmware's magnitude type list, absent from src); the "none" type is
the first entry, code 0. -/
def MAGNITUDE_NONE : ℕ := 0

/-- The `MAGNITUDE_NONE`-typed sentinel descriptor returned for an
out-of-range index. -/
def noneInfo : Info := ⟨MAGNITUDE_NONE, 0, 0, 0, [], []⟩

/-- The `MAGNITUDE_NONE`-typed sentinel reading returned for an out-of-range
index. -/
def noneValue : Value := ⟨MAGNITUDE_NONE, 0, 0, 0, 0, [], []⟩

/-- One registered magnitude slot of the registry: its static descriptor and
its current reading (latest-read or last-reported, whichever the process
mode selects — the choice does not affect bounds behavior). -/
structure Magnitude where
  info : Info
  value : Value
deriving DecidableEq

/-- `magnitudeCount()` (declared sensor.h line 240, body in sensor.cpp,
absent from src): the number of registered magnitude slots. -/
def magnitudeCount (registry : List Magnitude) : ℕ := registry.length

/-- Modelled from the spec: `magnitudeInfo(index)` (declared sensor.h line
243, body in sensor.cpp, absent from src).  Source comment: "Will contain
`.type = MAGNITUDE_NONE` when index is out of bounds". -/
def magnitudeInfo (registry : List Magnitude) (index : ℕ) : Info :=
  ((registry.get? index).map Magnitude.info).getD noneInfo

/-- Modelled from the spec: `magnitudeValue(index)` (declared sensor.h line
255, body in sensor.cpp, absent from src); spec §4.3: bounds-checked,
returning a "none"-typed sentinel rather than failing when
`index >= count()`. -/
def magnitudeValue (registry : List Magnitude) (index : ℕ) : Value :=
  ((registry.get? index).map Magnitude.value).getD noneValue

/-- Modelled from the spec: `migrate()` together with the
`migrateVersion(MigrateVersionCallback)` registry (declared settings.h lines
307-311, bodies in settings.cpp, absent from src).  Spec §4.4: compare the
stored version against the compiled-in target; if behind, invoke all
registered callbacks in registration order, exactly once, each receiving the
previously-stored version; persist the new version only after all callbacks
complete.  The model is polymorphic in the callback identifier type `C` and
the settings-store type `S`; `run` interprets a callback as a store
transformation; the result also carries the trace of `(callback, version
argument)` invocations, in order. -/
def migrate {C S : Type} (run : C → ℤ → S → S) (target : ℤ) (cbs : List C)
    (st : ℤ × S) : (ℤ × S) × List (C × ℤ) :=
  if st.1 < target then
    let r := cbs.foldl (fun acc c => (run c st.1 acc.1, acc.2 ++ [(c, st.1)])) (st.2, [])
    ((target, r.1), r.2)
  else (st, [])

theorem kwhMultiplier_eq : KwhMultiplier = 3600000 := rfl

theorem Energy.normalize_eq (ws : ℕ) : ∀ kwh : ℕ, kwh < U32 →
    Energy.normalize kwh ws = ((kwh + ws / KwhMultiplier) % U32, ws % KwhMultiplier) := by
  induction ws using Nat.strong_induction_on with
  | _ ws ih =>
    intro kwh hk
    rw [Energy.normalize]
    have h1 : KwhMultiplier = 3600000 := rfl
    have h2 : U32 = 4294967296 := rfl
    split
    · rename_i h
      rw [ih (ws - KwhMultiplier) (by simp only [h1] at *; omega)
          ((kwh + 1) % U32) (by simp only [h2] at *; omega)]
      rw [Prod.mk.injEq]
      simp only [h1, h2] at *
      omega
    · rename_i h
      rw [Prod.mk.injEq]
      simp only [h1, h2] at *
      omega

theorem Energy.normalize_snd_lt (ws : ℕ) : ∀ kwh : ℕ,
    (Energy.normalize kwh ws).2 < KwhMultiplier := by
  induction ws using Nat.strong_induction_on with
  | _ ws ih =>
    intro kwh
    rw [Energy.normalize]
    have h1 : KwhMultiplier = 3600000 := rfl
    split
    · rename_i h
      exact ih (ws - KwhMultiplier) (by omega) ((kwh + 1) % U32)
    · rename_i h
      simpa using by omega

/-- Claim C1: accumulation normalizes by carrying whole multiples of
3 600 000 watt-seconds into the kWh part: from a zero `Energy`, accumulating
3 600 000 Ws once gives `kwhPart = 1, wsPart = 0`; accumulating 3 600 001 Ws
twice gives `kwhPart = 2, wsPart = 2`; and after any accumulate, from any
starting state, `wsPart < 3 600 000`. -/
theorem C1_energy_accumulate_normalizes :
    Energy.accumulate ⟨0, 0⟩ 3600000 = ⟨1, 0⟩ ∧
    Energy.accumulate (Energy.accumulate ⟨0, 0⟩ 3600001) 3600001 = ⟨2, 2⟩ ∧
    ∀ (e : Energy) (delta : ℕ), (Energy.accumulate e delta).ws < 3600000 := by
  refine ⟨?_, ?_, ?_⟩
  · show (⟨(Energy.normalize 0 ((0 + 3600000) % U32)).1,
          (Energy.normalize 0 ((0 + 3600000) % U32)).2⟩ : Energy) = ⟨1, 0⟩
    rw [Energy.normalize_eq _ 0 (by decide)]
    rfl
  · show Energy.accumulate
      ⟨(Energy.normalize 0 ((0 + 3600001) % U32)).1,
       (Energy.normalize 0 ((0 + 3600001) % U32)).2⟩ 3600001 = ⟨2, 2⟩
    rw [Energy.normalize_eq _ 0 (by decide)]
    show (⟨(Energy.normalize 1 ((3600001 % 3600000 + 3600001) % U32)).1,
          (Energy.normalize 1 ((3600001 % 3600000 + 3600001) % U32)).2⟩ : Energy) = ⟨2, 2⟩
    rw [Energy.normalize_eq _ 1 (by decide)]
    rfl
  · intro e delta
    have h := Energy.normalize_snd_lt ((e.ws + delta) % U32) e.kwh
    rw [kwhMultiplier_eq] at h
    exact h

/-- Counterexample to claim C8: after `reset()`, accumulating the
(perfectly valid) delta `WattSeconds(0)` leaves both counters zero, so
`bool(energy)` is still `false`, while the claim promises `true` after "any
subsequent accumulate". -/
theorem C8_counterexample :
    Energy.toBool (Energy.accumulate (Energy.resetE ⟨5, 5⟩) 0) = false := by
  show Energy.toBool
    ⟨(Energy.normalize 0 ((0 + 0) % U32)).1, (Energy.normalize 0 ((0 + 0) % U32)).2⟩ = false
  rw [Energy.normalize_eq _ 0 (by decide)]
  rfl

/-- Claim C8 (amended): after `Energy::reset()`, `bool(energy)` is false;
any subsequent accumulate of a NON-ZERO `WattSeconds` delta makes it true;
and `bool(energy)` holds exactly when `kwhPart` and/or `wsPart` is
non-zero (the `Accumulating` state). -/
theorem C8_energy_reset_bool (e : Energy) (d : ℕ) (hd : d ≠ 0) (hdu : d < U32) :
    Energy.toBool (Energy.resetE e) = false ∧
    Energy.toBool (Energy.accumulate (Energy.resetE e) d) = true ∧
    ∀ e2 : Energy, (Energy.toBool e2 = true ↔ (e2.kwh ≠ 0 ∨ e2.ws ≠ 0)) := by
  refine ⟨rfl, ?_, ?_⟩
  · show Energy.toBool
      ⟨(Energy.normalize 0 ((0 + d) % U32)).1, (Energy.normalize 0 ((0 + d) % U32)).2⟩ = true
    rw [Energy.normalize_eq _ 0 (by decide)]
    simp only [Energy.toBool, Bool.or_eq_true, decide_eq_true_eq]
    have h1 : KwhMultiplier = 3600000 := rfl
    have h2 : U32 = 4294967296 := rfl
    simp only [h1, h2] at *
    omega
  · intro e2
    simp [Energy.toBool]

/-- Witness for claim C8's amended theorem at `e = ⟨3, 4⟩`, `d = 5`. -/
theorem C8_witness :
    Energy.toBool (Energy.resetE ⟨3, 4⟩) = false ∧
    Energy.toBool (Energy.accumulate (Energy.resetE ⟨3, 4⟩) 5) = true ∧
    (Energy.toBool ⟨0, 7⟩ = true ↔ ((0 : ℕ) ≠ 0 ∨ (7 : ℕ) ≠ 0)) := by
  have h := C8_energy_reset_bool ⟨3, 4⟩ 5 (by decide) (by decide)
  exact ⟨h.1, h.2.1, h.2.2 ⟨0, 7⟩⟩

/-- Counterexample to claim C2: `Convert<WattSeconds, KilowattHours>` at
`from.value = 1200` evaluates `1200 * 3_600_000` in `uint32_t`, which wraps
modulo `2^32` to `25_032_704`, not the exact (trivially truncated) quotient
`4_320_000_000` that the claim's formula demands. -/
theorem C2_counterexample :
    Convert.fromU32 WattSeconds.Scale KilowattHours.Scale 1200 = 25032704 ∧
    1200 * (KilowattHours.Scale.num * WattSeconds.Scale.den)
      / (KilowattHours.Scale.den * WattSeconds.Scale.num) = 4320000000 ∧
    (25032704 : ℕ) ≠ 4320000000 := by
  refine ⟨rfl, rfl, by decide⟩

/-- Claim C2 (amended): for the `double`-typed quantities the conversion
computes exactly `from.value * (From::Ratio / To::Ratio)` with the ratio
reduced at compile time; for the `uint32_t`-typed quantities, PROVIDED the
intermediate product `from.value * Divide::num` fits in 32 bits, the result
is the exact quotient truncated toward zero (it equals both the `ℕ`-division
by the unreduced ratio and the floor of the exact rational value); when the
product does not fit it wraps modulo `2^32` first. -/
theorem nat_mul_div_reduce (v a b : ℕ) :
    v * (a / Nat.gcd a b) / (b / Nat.gcd a b) = v * a / b := by
  rcases Nat.eq_zero_or_pos (Nat.gcd a b) with hg | hg
  · have ha := Nat.eq_zero_of_gcd_eq_zero_left hg
    have hb := Nat.eq_zero_of_gcd_eq_zero_right hg
    subst ha
    subst hb
    simp
  · obtain ⟨a1, ha1⟩ := Nat.gcd_dvd_left a b
    obtain ⟨b1, hb1⟩ := Nat.gcd_dvd_right a b
    generalize hgg : Nat.gcd a b = g at ha1 hb1 hg ⊢
    subst ha1
    subst hb1
    rw [Nat.mul_div_cancel_left _ hg, Nat.mul_div_cancel_left _ hg]
    rw [show v * (g * a1) = g * (v * a1) by ring]
    exact (Nat.mul_div_mul_left _ _ hg).symm

theorem rat_div_reduce (a b : ℕ) (hb : b ≠ 0) :
    ((a / Nat.gcd a b : ℕ) : ℚ) / ((b / Nat.gcd a b : ℕ) : ℚ) = (a : ℚ) / (b : ℚ) := by
  have hg : Nat.gcd a b ≠ 0 := fun h => hb (Nat.eq_zero_of_gcd_eq_zero_right h)
  have hgq : ((Nat.gcd a b : ℕ) : ℚ) ≠ 0 := by exact_mod_cast hg
  rw [Nat.cast_div (Nat.gcd_dvd_left a b) hgq, Nat.cast_div (Nat.gcd_dvd_right a b) hgq]
  rw [div_div_div_cancel_right₀ hgq]

theorem C2_convert_ratio_amended :
    (∀ (To From : Scale) (v : ℚ), From.den ≠ 0 → To.num ≠ 0 →
      Convert.fromQ To From v
        = v * (((From.num * To.den : ℕ) : ℚ) / ((From.den * To.num : ℕ) : ℚ))) ∧
    (∀ (To From : Scale) (v : ℕ), v * (Scale.div From To).num < U32 →
      Convert.fromU32 To From v = v * (From.num * To.den) / (From.den * To.num) ∧
      (From.den * To.num ≠ 0 →
        Convert.fromU32 To From v
          = Nat.floor (((v * (From.num * To.den) : ℕ) : ℚ) / ((From.den * To.num : ℕ) : ℚ)))) := by
  constructor
  · intro To From v hd hn
    have hb : From.den * To.num ≠ 0 := Nat.mul_ne_zero hd hn
    show v * ((Scale.reduce (From.num * To.den) (From.den * To.num)).num : ℚ)
        / ((Scale.reduce (From.num * To.den) (From.den * To.num)).den : ℚ) = _
    simp only [Scale.reduce]
    rw [mul_div_assoc, rat_div_reduce _ _ hb]
  · intro To From v hfit
    have key : Convert.fromU32 To From v = v * (From.num * To.den) / (From.den * To.num) := by
      show ((v * (Scale.div From To).num) % U32) / (Scale.div From To).den = _
      rw [Nat.mod_eq_of_lt hfit]
      show (v * (Scale.reduce (From.num * To.den) (From.den * To.num)).num)
          / (Scale.reduce (From.num * To.den) (From.den * To.num)).den = _
      simp only [Scale.reduce]
      exact nat_mul_div_reduce v _ _
    refine ⟨key, fun hb => ?_⟩
    rw [key, Nat.floor_div_nat, Nat.floor_natCast]

/-- Witness for claim C2's amended theorem: `Watts -> Kilowatts` at 5 W
(rational part) and `WattSeconds -> WattHours` at 7200 Ws (integer part,
intermediate product `7200 * 1` fits in 32 bits). -/
theorem C2_witness :
    Convert.fromQ Kilowatts.Scale Watts.Scale 5
      = 5 * (((Watts.Scale.num * Kilowatts.Scale.den : ℕ) : ℚ)
          / ((Watts.Scale.den * Kilowatts.Scale.num : ℕ) : ℚ)) ∧
    Convert.fromU32 WattHours.Scale WattSeconds.Scale 7200
      = 7200 * (WattSeconds.Scale.num * WattHours.Scale.den)
          / (WattSeconds.Scale.den * WattHours.Scale.num) := by
  exact ⟨C2_convert_ratio_amended.1 Kilowatts.Scale Watts.Scale 5 (by decide) (by decide),
    (C2_convert_ratio_amended.2 WattHours.Scale WattSeconds.Scale 7200 (by decide)).1⟩

/-- Counterexample to claim C6: converting `WattSeconds(1)` to
`KilowattHours` and back yields 0, a round-trip error of exactly one
watt-second, which is not less than one unit of the finer type
(`WattSeconds`). -/
theorem C6_counterexample :
    Convert.fromU32 WattSeconds.Scale KilowattHours.Scale
        (Convert.fromU32 KilowattHours.Scale WattSeconds.Scale 1) = 0 ∧
    ¬ (1 - Convert.fromU32 WattSeconds.Scale KilowattHours.Scale
        (Convert.fromU32 KilowattHours.Scale WattSeconds.Scale 1) < 1) := by
  refine ⟨rfl, by decide⟩

/-- Claim C6 (amended): converting Watts to Kilowatts and back (and
Kilowatts to Watts and back) is the identity for every value; converting
WattSeconds to KilowattHours and back truncates down to a whole multiple of
3 600 000 Ws, never exceeds the input, and the round-trip error is less than
one unit of the COARSER type (one kWh, i.e. 3 600 000 of the finer
watt-second units). -/
theorem C6_roundtrip_amended :
    (∀ v : ℚ, Convert.fromQ Watts.Scale Kilowatts.Scale
        (Convert.fromQ Kilowatts.Scale Watts.Scale v) = v) ∧
    (∀ v : ℚ, Convert.fromQ Kilowatts.Scale Watts.Scale
        (Convert.fromQ Watts.Scale Kilowatts.Scale v) = v) ∧
    (∀ v : ℕ, v < U32 →
      Convert.fromU32 WattSeconds.Scale KilowattHours.Scale
          (Convert.fromU32 KilowattHours.Scale WattSeconds.Scale v)
        = v / KwhMultiplier * KwhMultiplier ∧
      Convert.fromU32 WattSeconds.Scale KilowattHours.Scale
          (Convert.fromU32 KilowattHours.Scale WattSeconds.Scale v) ≤ v ∧
      v - Convert.fromU32 WattSeconds.Scale KilowattHours.Scale
          (Convert.fromU32 KilowattHours.Scale WattSeconds.Scale v) < KwhMultiplier) := by
  have e1 : Scale.div Watts.Scale Kilowatts.Scale = ⟨1, 1000⟩ := rfl
  have e2 : Scale.div Kilowatts.Scale Watts.Scale = ⟨1000, 1⟩ := rfl
  have e3 : Scale.div WattSeconds.Scale KilowattHours.Scale = ⟨1, 3600000⟩ := rfl
  have e4 : Scale.div KilowattHours.Scale WattSeconds.Scale = ⟨3600000, 1⟩ := rfl
  refine ⟨?_, ?_, ?_⟩
  · intro v
    show Convert.fromQ Watts.Scale Kilowatts.Scale
      (v * ((Scale.div Watts.Scale Kilowatts.Scale).num : ℚ)
        / ((Scale.div Watts.Scale Kilowatts.Scale).den : ℚ)) = v
    rw [e1]
    show v * ((1 : ℕ) : ℚ) / ((1000 : ℕ) : ℚ)
        * ((Scale.div Kilowatts.Scale Watts.Scale).num : ℚ)
        / ((Scale.div Kilowatts.Scale Watts.Scale).den : ℚ) = v
    rw [e2]
    push_cast
    ring
  · intro v
    show Convert.fromQ Kilowatts.Scale Watts.Scale
      (v * ((Scale.div Kilowatts.Scale Watts.Scale).num : ℚ)
        / ((Scale.div Kilowatts.Scale Watts.Scale).den : ℚ)) = v
    rw [e2]
    show v * ((1000 : ℕ) : ℚ) / ((1 : ℕ) : ℚ)
        * ((Scale.div Watts.Scale Kilowatts.Scale).num : ℚ)
        / ((Scale.div Watts.Scale Kilowatts.Scale).den : ℚ) = v
    rw [e1]
    push_cast
    ring
  · intro v hv
    show ((Convert.fromU32 KilowattHours.Scale WattSeconds.Scale v
            * (Scale.div KilowattHours.Scale WattSeconds.Scale).num) % U32)
          / (Scale.div KilowattHours.Scale WattSeconds.Scale).den
        = v / KwhMultiplier * KwhMultiplier ∧ _
    rw [e4]
    show ((((v * (Scale.div WattSeconds.Scale KilowattHours.Scale).num) % U32)
            / (Scale.div WattSeconds.Scale KilowattHours.Scale).den * 3600000) % U32) / 1
        = v / KwhMultiplier * KwhMultiplier ∧ _
    rw [e3]
    have h1 : KwhMultiplier = 3600000 := rfl
    have h2 : U32 = 4294967296 := rfl
    simp only [Convert.fromU32, e3, e4, h1, h2] at *
    omega

theorem serializeNat_mem_ge (n : ℕ) : ∀ c ∈ serializeNat n, 48 ≤ c := by
  intro c hc
  unfold serializeNat at hc
  split at hc
  · simp only [List.mem_singleton] at hc
    omega
  · simp only [List.mem_reverse, List.mem_map] at hc
    obtain ⟨d, _, rfl⟩ := hc
    omega

theorem convertNat_serializeNat (n : ℕ) : convertNat (serializeNat n) = n := by
  rcases eq_or_ne n 0 with h | h
  · subst h
    decide
  · have hdig : ∀ d ∈ Nat.digits 10 n, d < 10 :=
      fun d hd => Nat.digits_lt_base (by norm_num) hd
    have hval : isValidNat (serializeNat n) = true := by
      unfold isValidNat
      rw [Bool.and_eq_true, decide_eq_true_eq]
      constructor
      · unfold serializeNat
        rw [if_neg h]
        simp [Nat.digits_ne_nil_iff_ne_zero, h]
      · rw [List.all_eq_true]
        intro c hc
        unfold serializeNat at hc
        rw [if_neg h] at hc
        simp only [List.mem_reverse, List.mem_map] at hc
        obtain ⟨d, hd, rfl⟩ := hc
        have := hdig d hd
        unfold isDigitCode
        rw [Bool.and_eq_true, decide_eq_true_eq, decide_eq_true_eq]
        omega
    unfold convertNat
    rw [hval, if_pos rfl]
    unfold serializeNat
    rw [if_neg h]
    rw [List.map_reverse, List.reverse_reverse, List.map_map]
    rw [List.map_congr_left (fun d hd => by
      show d + 48 - 48 = d
      omega)]
    rw [List.map_id']
    exact Nat.ofDigits_digits 10 n

theorem serializeNat_head_ne_minus (n : ℕ) : (serializeNat n).head? ≠ some 45 := by
  intro h
  have hm : 45 ∈ serializeNat n := by
    cases ht : serializeNat n with
    | nil => rw [ht] at h; exact Option.noConfusion h
    | cons c rest =>
      rw [ht] at h
      simp only [List.head?, Option.some.injEq] at h
      rw [h]
      exact List.mem_cons_self _ _
  have := serializeNat_mem_ge n 45 hm
  omega

theorem convertInt_serializeInt (x : ℤ) : convertInt (serializeInt x) = x := by
  rcases lt_or_le x 0 with h | h
  · unfold serializeInt
    rw [if_pos h]
    unfold convertInt
    simp only [List.head?_cons]
    rw [if_pos trivial]
    show -(convertNat (serializeNat x.natAbs) : ℤ) = x
    rw [convertNat_serializeNat]
    omega
  · unfold serializeInt
    rw [if_neg (not_lt.mpr h)]
    unfold convertInt
    rw [if_neg (serializeNat_head_ne_minus x.toNat)]
    rw [convertNat_serializeNat]
    omega

/-- Claim C3: the serialize/convert round trip.  Unsigned widths are covered
by the `ℕ` statement and signed widths by the `ℤ` statement (each width's
values embed); booleans round-trip through the fixed tokens; floating values
(modelled exactly over `ℚ`) round-trip to within half a thousandth, i.e.
they agree with the input to 3 decimal places. -/
theorem C3_serialize_convert_roundtrip :
    (∀ n : ℕ, convertNat (serializeNat n) = n) ∧
    (∀ x : ℤ, convertInt (serializeInt x) = x) ∧
    (∀ b : Bool, convertBool (serializeBool b) = b) ∧
    (∀ x : ℚ, |convertFixed3 (serializeFixed3 x) - x| ≤ 1 / 2000) := by
  refine ⟨convertNat_serializeNat, convertInt_serializeInt, ?_, ?_⟩
  · intro b
    cases b <;> decide
  · intro x
    unfold convertFixed3 serializeFixed3
    rw [convertInt_serializeInt]
    have h := abs_sub_round (x * 1000)
    rw [abs_sub_comm] at h
    rw [show ((round (x * 1000) : ℤ) : ℚ) / 1000 - x = ((round (x * 1000) : ℤ) - x * 1000) / 1000
      by ring]
    rw [abs_div]
    rw [show |(1000 : ℚ)| = 1000 by norm_num]
    linarith

/-- Claim C5: `getSetting<T>` returns the caller default exactly on a
missing entry; a present entry always goes through `convert<T>`, which maps
malformed text to zero rather than to the default, so (for a non-zero
default) absence and malformed-but-present give different results. -/
theorem C5_getSetting_absent_vs_malformed :
    (∀ (store : Text → Option Text) (key : Text) (d : ℤ),
      store key = none → getSettingI store key d = d) ∧
    (∀ (store : Text → Option Text) (key : Text) (d : ℤ) (v : Text),
      store key = some v → getSettingI store key d = convertInt v) ∧
    (∀ t : Text, isValidInt t = false → convertInt t = 0) ∧
    (∀ (store : Text → Option Text) (key : Text) (d : ℤ) (v : Text),
      d ≠ 0 → store key = some v → isValidInt v = false → getSettingI store key d ≠ d) := by
  have hmal : ∀ t : Text, isValidInt t = false → convertInt t = 0 := by
    intro t ht
    unfold isValidInt at ht
    unfold convertInt
    by_cases h : t.head? = some 45
    · rw [if_pos h] at ht
      rw [if_pos h]
      unfold convertNat
      rw [ht]
      simp
    · rw [if_neg h] at ht
      rw [if_neg h]
      unfold convertNat
      rw [ht]
      simp
  refine ⟨?_, ?_, hmal, ?_⟩
  · intro store key d h
    unfold getSettingI
    rw [h]
  · intro store key d v h
    unfold getSettingI
    rw [h]
  · intro store key d v hd h hv
    unfold getSettingI
    rw [h]
    show convertInt v ≠ d
    rw [hmal v hv]
    exact fun he => hd he.symm

/-- Witness for claim C5 at key `"k"` (code 107): an absent entry yields the
default 7; a present entry `"x"` (code 120, malformed for `int`) yields 0,
not the default. -/
theorem C5_witness :
    getSettingI (fun _ => none) [107] 7 = 7 ∧
    getSettingI (fun _ => some [120]) [107] 7 = convertInt [120] ∧
    convertInt [120] = 0 ∧
    getSettingI (fun _ => some [120]) [107] 7 ≠ 7 := by
  exact ⟨C5_getSetting_absent_vs_malformed.1 _ [107] 7 rfl,
    C5_getSetting_absent_vs_malformed.2.1 _ [107] 7 [120] rfl,
    C5_getSetting_absent_vs_malformed.2.2.1 [120] (by decide),
    C5_getSetting_absent_vs_malformed.2.2.2 _ [107] 7 [120] (by decide) rfl (by decide)⟩

/-- Counterexample to claim C4: with the single-option table
`{value 0, keyword "7"}`, the text `"7"` parses numerically (as 7), matches
no option's numeric code, yet exactly matches the option's keyword; the
claim's resolution order demands the keyword match (value 0), but the code
returns the caller default 99. -/
theorem C4_counterexample :
    convertOpts [⟨0, [55]⟩] [55] 99 = 99 ∧
    parseNumeric [55] = some 7 ∧
    (∀ e ∈ ([⟨0, [55]⟩] : List OptEntry), e.value ≠ 7) ∧
    (∃ e ∈ ([⟨0, [55]⟩] : List OptEntry), e.keyword = [55]) ∧
    (99 : ℤ) ≠ 0 := by
  decide

/-- Claim C4 (amended): the enumeration-backed convert resolves as follows —
empty text gives the caller default; if the text parses as the underlying
numeric type, a matching numeric code gives that option's value (the parsed
code itself) and no matching code gives the default (keyword matching is NOT
attempted in this case); only if the text does not parse numerically is it
compared against the keywords, the first exact match giving that option's
value and no match giving the default. -/
theorem C4_options_resolution_amended :
    ∀ (options : List OptEntry) (t : Text) (d : ℤ),
      (t = [] → convertOpts options t d = d) ∧
      (∀ n : ℤ, parseNumeric t = some n →
        ((∃ e ∈ options, e.value = n) → convertOpts options t d = n) ∧
        ((∀ e ∈ options, e.value ≠ n) → convertOpts options t d = d)) ∧
      (parseNumeric t = none → t ≠ [] →
        (∀ e : OptEntry, options.find? (fun e2 => e2.keyword == t) = some e →
          convertOpts options t d = e.value) ∧
        (options.find? (fun e2 => e2.keyword == t) = none →
          convertOpts options t d = d)) := by
  intro options t d
  refine ⟨?_, ?_, ?_⟩
  · intro h
    subst h
    simp [convertOpts]
  · intro n hn
    have ht : t ≠ [] := by
      intro h
      subst h
      simp [parseNumeric, isValidInt, isValidNat] at hn
    constructor
    · intro hex
      have hsome : (options.find? (fun e => e.value == n)).isSome := by
        rw [List.find?_isSome]
        obtain ⟨e, he, hv⟩ := hex
        exact ⟨e, he, by simp [hv]⟩
      obtain ⟨e, he⟩ := Option.isSome_iff_exists.mp hsome
      simp [convertOpts, ht, hn, he]
    · intro hall
      have hnone : options.find? (fun e => e.value == n) = none := by
        rw [List.find?_eq_none]
        intro e he
        simpa using hall e he
      simp [convertOpts, ht, hn, hnone]
  · intro hn ht
    constructor
    · intro e he
      simp [convertOpts, ht, hn, he]
    · intro hnone
      simp [convertOpts, ht, hn, hnone]

/-- Witness for claim C4's amended theorem with the table
`{value 1, keyword "on"}`: text `"1"` resolves numerically to 1, text `"on"`
resolves by keyword to 1, and empty text yields the default 5. -/
theorem C4_witness :
    convertOpts [⟨1, [111, 110]⟩] [49] 5 = 1 ∧
    convertOpts [⟨1, [111, 110]⟩] [111, 110] 5 = 1 ∧
    convertOpts [⟨1, [111, 110]⟩] [] 5 = 5 := by
  refine ⟨((C4_options_resolution_amended [⟨1, [111, 110]⟩] [49] 5).2.1 1
      (by decide)).1 (by decide), ?_, (C4_options_resolution_amended [⟨1, [111, 110]⟩] [] 5).1 rfl⟩
  exact ((C4_options_resolution_amended [⟨1, [111, 110]⟩] [111, 110] 5).2.2
    (by decide) (by decide)).1 ⟨1, [111, 110]⟩ (by decide)

/-- Claim C10: once the text parses numerically, keyword matching is never
attempted — with no numeric-code match the result is the caller default even
when the text exactly equals some option's keyword; and empty text yields
the default without consulting the table. -/
theorem C10_numeric_parse_disables_keywords :
    (∀ (options : List OptEntry) (t : Text) (d n : ℤ),
      parseNumeric t = some n →
      (∀ e ∈ options, e.value ≠ n) →
      (∃ e ∈ options, e.keyword = t) →
      convertOpts options t d = d) ∧
    (∀ (options : List OptEntry) (d : ℤ), convertOpts options [] d = d) := by
  constructor
  · intro options t d n hn hall _hkw
    have ht : t ≠ [] := by
      intro h
      subst h
      simp [parseNumeric, isValidInt, isValidNat] at hn
    have hnone : options.find? (fun e => e.value == n) = none := by
      rw [List.find?_eq_none]
      intro e he
      simpa using hall e he
    simp [convertOpts, ht, hn, hnone]
  · intro options d
    simp [convertOpts]

/-- Witness for claim C10 with the table `{value 0, keyword "7"}`: the text
`"7"` parses as 7, matches no code, equals the keyword, and still yields the
default 42; empty text also yields 42. -/
theorem C10_witness :
    convertOpts [⟨0, [55]⟩] [55] 42 = 42 ∧
    convertOpts [⟨0, [55]⟩] [] 42 = 42 := by
  exact ⟨C10_numeric_parse_disables_keywords.1 [⟨0, [55]⟩] [55] 42 7
      (by decide) (by decide) (by decide),
    C10_numeric_parse_disables_keywords.2 [⟨0, [55]⟩] 42⟩

/-- Claim C7: for every index at or past `magnitudeCount()`, both
`magnitudeInfo` and `magnitudeValue` return the `MAGNITUDE_NONE`-typed
sentinel record (and, being total functions, neither faults for any
index). -/
theorem C7_out_of_range_sentinel :
    ∀ (registry : List Magnitude) (index : ℕ),
      magnitudeCount registry ≤ index →
      (magnitudeInfo registry index).type = MAGNITUDE_NONE ∧
      (magnitudeValue registry index).type = MAGNITUDE_NONE := by
  intro registry index h
  have hg : registry.get? index = none := List.get?_eq_none.mpr h
  constructor
  · unfold magnitudeInfo
    rw [hg]
    rfl
  · unfold magnitudeValue
    rw [hg]
    rfl

/-- Witness for claim C7: a one-slot registry read at index 5. -/
theorem C7_witness :
    (magnitudeInfo [⟨⟨3, 0, 1, 2, [97], [98]⟩, ⟨3, 0, 1, 2, 5, [97], [99]⟩⟩] 5).type
        = MAGNITUDE_NONE ∧
    (magnitudeValue [⟨⟨3, 0, 1, 2, [97], [98]⟩, ⟨3, 0, 1, 2, 5, [97], [99]⟩⟩] 5).type
        = MAGNITUDE_NONE := by
  exact C7_out_of_range_sentinel [⟨⟨3, 0, 1, 2, [97], [98]⟩, ⟨3, 0, 1, 2, 5, [97], [99]⟩⟩] 5
    (by decide)

theorem migrate_foldl_trace {C S : Type} (run : C → ℤ → S → S) (v : ℤ) :
    ∀ (cbs : List C) (s : S) (l : List (C × ℤ)),
      (cbs.foldl (fun acc c => (run c v acc.1, acc.2 ++ [(c, v)])) (s, l)).2
        = l ++ cbs.map (fun c => (c, v)) := by
  intro cbs
  induction cbs with
  | nil =>
    intro s l
    simp
  | cons c cs ih =>
    intro s l
    rw [List.foldl_cons, ih]
    simp

/-- Claim C9: when the stored version is behind the target, `migrate()`
invokes every registered callback exactly once, in registration order, each
receiving the previously-stored version, and leaves the persisted version at
the target; a second `migrate()` from the resulting state changes neither
the store nor the version and invokes no callbacks. -/
theorem C9_migrate_order_and_idempotence {C S : Type} (run : C → ℤ → S → S)
    (target : ℤ) (cbs : List C) (st : ℤ × S) :
    (st.1 < target →
      (migrate run target cbs st).2 = cbs.map (fun c => (c, st.1)) ∧
      (migrate run target cbs st).1.1 = target) ∧
    migrate run target cbs (migrate run target cbs st).1
      = ((migrate run target cbs st).1, []) := by
  constructor
  · intro h
    unfold migrate
    rw [if_pos h]
    exact ⟨by simpa using migrate_foldl_trace run st.1 cbs st.2 [], rfl⟩
  · unfold migrate
    by_cases h : st.1 < target
    · rw [if_pos h]
      rw [if_neg (lt_irrefl target)]
    · rw [if_neg h, if_neg h]

/-- Witness for claim C9: target version 2, two callbacks `3, 4` operating
on an integer store, starting at version 0 with store 10: both are invoked
in order with version 0, the version lands at 2, and a second `migrate` is a
no-op with an empty trace. -/
theorem C9_witness :
    (migrate (fun (c : ℕ) (v : ℤ) (s : ℤ) => s + c * v) 2 [3, 4] (0, 10)).2
        = [(3, 0), (4, 0)] ∧
    (migrate (fun (c : ℕ) (v : ℤ) (s : ℤ) => s + c * v) 2 [3, 4] (0, 10)).1.1 = 2 ∧
    migrate (fun (c : ℕ) (v : ℤ) (s : ℤ) => s + c * v) 2 [3, 4]
        (migrate (fun (c : ℕ) (v : ℤ) (s : ℤ) => s + c * v) 2 [3, 4] (0, 10)).1
      = ((migrate (fun (c : ℕ) (v : ℤ) (s : ℤ) => s + c * v) 2 [3, 4] (0, 10)).1, []) := by
  have h := C9_migrate_order_and_idempotence (fun (c : ℕ) (v : ℤ) (s : ℤ) => s + c * v)
    2 [3, 4] (0, 10)
  exact ⟨(h.1 (by decide)).1, (h.1 (by decide)).2, h.2⟩

/-- Witness for claim C6's amended theorem at the Watts value 5 and the
WattSeconds value 7 200 001 (which is below `2^32`). -/
theorem C6_witness :
    Convert.fromQ Watts.Scale Kilowatts.Scale
        (Convert.fromQ Kilowatts.Scale Watts.Scale 5) = 5 ∧
    Convert.fromU32 WattSeconds.Scale KilowattHours.Scale
        (Convert.fromU32 KilowattHours.Scale WattSeconds.Scale 7200001)
      = 7200001 / KwhMultiplier * KwhMultiplier ∧
    Convert.fromU32 WattSeconds.Scale KilowattHours.Scale
        (Convert.fromU32 KilowattHours.Scale WattSeconds.Scale 7200001) ≤ 7200001 ∧
    7200001 - Convert.fromU32 WattSeconds.Scale KilowattHours.Scale
        (Convert.fromU32 KilowattHours.Scale WattSeconds.Scale 7200001) < KwhMultiplier := by
  have h := C6_roundtrip_amended.2.2 7200001 (by decide)
  exact ⟨C6_roundtrip_amended.1 5, h.1, h.2.1, h.2.2⟩
